import Mathlib

/-!
Verification of the Salesforce REST client (`src/client.ts` of willsigmon/SFDCHTI).

The client is embedded shallowly:

* JSON bodies are values of the inductive type `Json`; an HTTP body is the pair
  of its raw text (`response.text()`) and its JSON parse (`response.json()` /
  `JSON.parse`), the latter `none` when the text is not valid JSON.
* The zod schemas of `src/types.ts` become parsing functions `Json → Option _`.
* The network is an `Oracle`: the i-th call to the token endpoint and the i-th
  call to a resource URL each receive a prescribed outcome.  A resource call can
  also time out (`HttpOutcome.timeout` stands for the `AbortError` raised by the
  30s `AbortController` in `request`).
* The mutable fields of the `SalesforceClient` instance plus instrumentation
  (number of token-endpoint calls, number of resource calls, the sequence of
  `setTimeout` backoff waits performed) form a `ClientState` that is threaded
  explicitly.  `Date.now()` is a `now : Nat` parameter (milliseconds); no claim
  depends on time advancing inside one operation.
* JWT signing (`generateJwtAssertion`) is opaque: the oracle's token responses
  do not depend on the assertion, and no claim concerns `SigningError`.
* Every distinct `throw new Error(...)` site of `client.ts` becomes a
  constructor of `SfError`, so error identity in the model is error identity in
  the code (the code has a single `Error` class; sites are told apart by their
  fixed message shapes).
-/

namespace SFDC

/-- JSON values.  Numbers are modelled as integers: no claim involves
non-integral numbers, and `totalSize` is the only number the client reads. -/
inductive Json where
  | null : Json
  | bool (b : Bool) : Json
  | num (n : Int) : Json
  | str (s : String) : Json
  | arr (xs : List Json) : Json
  | obj (fields : List (String × Json)) : Json
deriving Repr

/-- First binding of a key in a JS object's field list (JS property lookup). -/
def lookupField (fields : List (String × Json)) (k : String) : Option Json :=
  match fields with
  | [] => none
  | (k1, v) :: rest => if k1 = k then some v else lookupField rest k

/-- Property access `j[k]` on a JSON object. -/
def getField (j : Json) (k : String) : Option Json :=
  match j with
  | Json.obj fs => lookupField fs k
  | _ => none

/-- String-valued property access, as `z.string()` checks it. -/
def getStr (j : Json) (k : String) : Option String :=
  match getField j k with
  | some (Json.str s) => some s
  | _ => none

/-- Is the value a JSON object (what `z.record(z.string(), z.any())` accepts)? -/
def isJsonObj (j : Json) : Bool :=
  match j with
  | Json.obj _ => true
  | _ => false

/-- Result of `SalesforceTokenResponseSchema.parse`: the six declared string
fields of the token endpoint's success body (`src/types.ts`). -/
structure TokenData where
  access_token : String
  instance_url : String
  id : String
  token_type : String
  issued_at : String
  sig : String
deriving Repr, DecidableEq

/-- `SalesforceTokenResponseSchema.parse`: succeeds iff the value is an object
whose six declared keys are all strings (zod strips unknown keys; only the
declared ones survive). -/
def parseTokenResponse (j : Json) : Option TokenData :=
  match j with
  | Json.obj _ => do
    let a ← getStr j "access_token"
    let u ← getStr j "instance_url"
    let i ← getStr j "id"
    let t ← getStr j "token_type"
    let ia ← getStr j "issued_at"
    let sg ← getStr j "signature"
    pure ⟨a, u, i, t, ia, sg⟩
  | _ => none

/-- Result of `SalesforceQueryResponseSchema.parse` (`src/types.ts`). -/
structure QueryResp where
  totalSize : Int
  done : Bool
  records : List Json
  nextRecordsUrl : Option String
deriving Repr

/-- `SalesforceQueryResponseSchema.parse`: object with a number `totalSize`, a
boolean `done`, an array of objects `records`, and an optional string
`nextRecordsUrl` (absent is fine, any non-string present value is not). -/
def parseQueryResponse (j : Json) : Option QueryResp :=
  match j with
  | Json.obj _ => do
    let ts ← match getField j "totalSize" with
      | some (Json.num n) => some n
      | _ => none
    let d ← match getField j "done" with
      | some (Json.bool b) => some b
      | _ => none
    let recs ← match getField j "records" with
      | some (Json.arr xs) => if xs.all isJsonObj then some xs else none
      | _ => none
    let nu ← match getField j "nextRecordsUrl" with
      | none => some Option.none
      | some (Json.str s) => some (some s)
      | some _ => none
    pure ⟨ts, d, recs, nu⟩
  | _ => none

/-- `SalesforceCreateResponseSchema.parse`.  zod's default object mode strips
unknown keys but keeps every declared key, `errors` included; the output is the
object of the three declared fields (in shape-declaration order). -/
def parseCreateResponse (j : Json) : Option Json :=
  match j with
  | Json.obj _ => do
    let i ← match getField j "id" with
      | some (Json.str s) => some (Json.str s)
      | _ => none
    let su ← match getField j "success" with
      | some (Json.bool b) => some (Json.bool b)
      | _ => none
    let er ← match getField j "errors" with
      | some (Json.arr xs) => some (Json.arr xs)
      | _ => none
    pure (Json.obj [("id", i), ("success", su), ("errors", er)])
  | _ => none

/-- One element of `SalesforceErrorSchema` (`src/types.ts`). -/
structure SfApiErrorItem where
  message : String
  errorCode : String
  fields : Option (List String)
deriving Repr, DecidableEq

/-- Parse one `{message, errorCode, fields?}` object. -/
def parseErrorItem (j : Json) : Option SfApiErrorItem :=
  match j with
  | Json.obj _ => do
    let m ← getStr j "message"
    let c ← getStr j "errorCode"
    let fs ← match getField j "fields" with
      | none => some Option.none
      | some (Json.arr xs) =>
        (xs.mapM fun x => match x with
          | Json.str s => some s
          | _ => none).map Option.some
      | some _ => none
    pure ⟨m, c, fs⟩
  | _ => none

/-- `SalesforceErrorSchema.parse`: an array of error items. -/
def parseSfErrors (j : Json) : Option (List SfApiErrorItem) :=
  match j with
  | Json.arr xs => xs.mapM parseErrorItem
  | _ => none

/-- The cached token (`TokenCache` interface in `client.ts`). -/
structure TokenCache where
  accessToken : String
  instanceUrl : String
  expiresAt : Nat
deriving Repr, DecidableEq

/-- The configuration fields fixed by the constructor, with the defaults of
`client.ts` lines 50-60 and `config.ts`. -/
structure ClientConfig where
  loginUrl : String := "https://login.salesforce.com"
  instanceUrl : String := "https://hubzonetechnologyinitiative.my.salesforce.com"
  apiVersion : String := "v61.0"
  tokenCacheTtlMs : Nat := 55 * 60 * 1000
  requestTimeoutMs : Nat := 30000
  maxRetries : Nat := 3
deriving Repr, DecidableEq

/-- A constructor call with every option left to its default. -/
def defaultConfig : ClientConfig := {}

/-- The body of an HTTP response: its raw text together with its JSON parse
(`none` models `JSON.parse` / `response.json()` throwing on malformed text). -/
structure RespBody where
  raw : String
  json : Option Json
deriving Repr

/-- Outcome of one resource-endpoint fetch: a status plus body, or the
`AbortError` produced when the `requestTimeoutMs` timer fires. -/
inductive HttpOutcome where
  | resp (status : Nat) (body : RespBody) : HttpOutcome
  | timeout : HttpOutcome
deriving Repr

/-- Outcome of one token-endpoint fetch (`ok` is `response.ok`). -/
structure TokenResp where
  ok : Bool
  raw : String
  json : Option Json
deriving Repr

/-- The network: what the i-th token-endpoint call and the i-th resource call
(with the URL the client built) receive. -/
structure Oracle where
  token : Nat → TokenResp
  resource : Nat → String → HttpOutcome

/-- Mutable state of a `SalesforceClient` plus instrumentation: how many
token-endpoint calls and resource calls happened, and the backoff waits
(`setTimeout` delays) performed, in order. -/
structure ClientState where
  tokenCache : Option TokenCache
  tokenCalls : Nat
  resCalls : Nat
  delays : List Nat
deriving Repr

/-- The pair `authenticate` resolves to. -/
structure AuthResult where
  accessToken : String
  instanceUrl : String
deriving Repr, DecidableEq

/-- One constructor per distinct `throw new Error(...)` site of `client.ts`. -/
inductive SfError where
  | authExchangeFailed (body : String) : SfError
  | tokenJsonFailed : SfError
  | tokenParseFailed : SfError
  | authFailedAfterRetries : SfError
  | apiError (status : Nat) (message : String) : SfError
  | timeoutAfterRetries : SfError
  | bodyJsonFailed : SfError
  | queryParseFailed : SfError
  | createParseFailed : SfError
  | outOfFuel : SfError
deriving Repr, DecidableEq

/-- The token exchange of `authenticate` (lines 84-115): POST to the token
endpoint, fail on non-ok status with the body text, otherwise parse the JSON
body against the token schema, store a fresh `TokenCache` whose expiry is
`Date.now() + tokenCacheTtlMs`, and return the pair. -/
def tokenExchange (cfg : ClientConfig) (ora : Oracle) (now : Nat) (s : ClientState) :
    Except SfError AuthResult × ClientState :=
  let r := ora.token s.tokenCalls
  let s1 : ClientState := { s with tokenCalls := s.tokenCalls + 1 }
  if r.ok then
    match r.json with
    | none => (Except.error SfError.tokenJsonFailed, s1)
    | some j =>
      match parseTokenResponse j with
      | none => (Except.error SfError.tokenParseFailed, s1)
      | some d =>
        (Except.ok ⟨d.access_token, d.instance_url⟩,
         { s1 with tokenCache := some ⟨d.access_token, d.instance_url, now + cfg.tokenCacheTtlMs⟩ })
  else
    (Except.error (SfError.authExchangeFailed r.raw), s1)

/-- `authenticate` (lines 75-115): return the cached pair when a cache entry
exists and `Date.now()` is strictly before its expiry, otherwise run the token
exchange. -/
def authenticate (cfg : ClientConfig) (ora : Oracle) (now : Nat) (s : ClientState) :
    Except SfError AuthResult × ClientState :=
  match s.tokenCache with
  | some tc =>
    if now < tc.expiresAt then
      (Except.ok ⟨tc.accessToken, tc.instanceUrl⟩, s)
    else
      tokenExchange cfg ora now s
  | none => tokenExchange cfg ora now s

/-- The URL `request` builds: `instanceUrl + "/services/data/" + apiVersion + endpoint`. -/
def mkUrl (a : AuthResult) (cfg : ClientConfig) (endpoint : String) : String :=
  a.instanceUrl ++ "/services/data/" ++ cfg.apiVersion ++ endpoint

/-- The error message of the generic non-2xx branch (lines 172-181): try
`JSON.parse` on the body text, then the error schema, and join the parsed
messages; on any failure keep the raw-text message built first. -/
def apiErrorMessage (status : Nat) (body : RespBody) : String :=
  let rawMsg := "Salesforce API Error (" ++ toString status ++ "): " ++ body.raw
  match body.json with
  | some j =>
    match parseSfErrors j with
    | some errs =>
      "Salesforce API Error: " ++ String.intercalate ", " (errs.map SfApiErrorItem.message)
    | none => rawMsg
  | none => rawMsg

/-- The backoff delay `Math.pow(2, maxRetries - retries) * 1000` (lines 160,
167, 195).  Nat subtraction agrees with the JS expression whenever
`retries ≤ maxRetries`, which holds on every reachable call (the public entry
points start at `retries = maxRetries` and retries only decrease). -/
def backoffDelay (cfg : ClientConfig) (retries : Nat) : Nat :=
  2 ^ (cfg.maxRetries - retries) * 1000

/-- Record one performed `setTimeout` wait. -/
def addDelay (s : ClientState) (d : Nat) : ClientState :=
  { s with delays := s.delays ++ [d] }

/-- The tail of an attempt once every retry branch has been passed (lines
172-189): generic non-2xx error, `{}` on 204, otherwise `response.json()`. -/
def finishAttempt (status : Nat) (body : RespBody) (s : ClientState) :
    Except SfError Json × ClientState :=
  if 200 ≤ status ∧ status < 300 then
    if status = 204 then
      (Except.ok (Json.obj []), s)
    else
      match body.json with
      | some j => (Except.ok j, s)
      | none => (Except.error SfError.bodyJsonFailed, s)
  else
    (Except.error (SfError.apiError status (apiErrorMessage status body)), s)

/-- One attempt of `request` (lines 126-204): authenticate (errors propagate,
line 131 sits before the `try`), build the URL, perform the fetch, and apply
the status-code policy in source order.  `Sum.inl` is a result produced by this
attempt; `Sum.inr s3` says the attempt ended in a retry (`return this.request(
endpoint, options, retries - 1)`) to be re-run from state `s3`.  The
conditionals mirror the source: 401 clears the cache before the budget check;
429 / ≥500 retry only under `retries > 0` and otherwise fall through to
`finishAttempt`; a timeout (`AbortError`) retries under `retries > 0`. -/
def attempt (cfg : ClientConfig) (ora : Oracle) (now : Nat) (endpoint : String)
    (retries : Nat) (s : ClientState) :
    (Except SfError Json × ClientState) ⊕ ClientState :=
  match authenticate cfg ora now s with
  | (Except.error e, s1) => Sum.inl (Except.error e, s1)
  | (Except.ok a, s1) =>
    let out := ora.resource s1.resCalls (mkUrl a cfg endpoint)
    let s2 : ClientState := { s1 with resCalls := s1.resCalls + 1 }
    match out with
    | HttpOutcome.timeout =>
      if 0 < retries then
        Sum.inr (addDelay s2 (backoffDelay cfg retries))
      else
        Sum.inl (Except.error SfError.timeoutAfterRetries, s2)
    | HttpOutcome.resp status body =>
      if status = 401 then
        let s3 : ClientState := { s2 with tokenCache := none }
        if 0 < retries then
          Sum.inr s3
        else
          Sum.inl (Except.error SfError.authFailedAfterRetries, s3)
      else if status = 429 ∧ 0 < retries then
        Sum.inr (addDelay s2 (backoffDelay cfg retries))
      else if 500 ≤ status ∧ 0 < retries then
        Sum.inr (addDelay s2 (backoffDelay cfg retries))
      else
        Sum.inl (finishAttempt status body s2)

/-- `request` (lines 126-204): run attempts, decrementing the budget on each
retry.  At budget 0 `attempt` never asks for a retry (every `0 < retries`
guard is false), so the `Sum.inr` arm of the first equation is dead code; the
lemma `attempt_zero_inl` below proves it unreachable. -/
def request (cfg : ClientConfig) (ora : Oracle) (now : Nat) (endpoint : String) :
    Nat → ClientState → Except SfError Json × ClientState
  | 0, s =>
    match attempt cfg ora now endpoint 0 s with
    | Sum.inl d => d
    | Sum.inr s3 => (Except.error SfError.outOfFuel, s3)
  | r + 1, s =>
    match attempt cfg ora now endpoint (r + 1) s with
    | Sum.inl d => d
    | Sum.inr s3 => request cfg ora now endpoint r s3

/-- Hex digit (uppercase) of a value below 16. -/
def hexDigit (n : Nat) : Char :=
  if n < 10 then Char.ofNat (48 + n) else Char.ofNat (55 + n)

/-- Percent-encoding of one byte, as `%XX`. -/
def byteHex (b : Nat) : String :=
  String.mk [Char.ofNat 37, hexDigit (b / 16), hexDigit (b % 16)]

/-- The characters `encodeURIComponent` leaves alone: ASCII alphanumerics and
`- _ . ! ~ * ( )` plus the apostrophe (compared by code point). -/
def isUriUnreserved (c : Char) : Bool :=
  let n := c.toNat
  (65 ≤ n && n ≤ 90) || (97 ≤ n && n ≤ 122) || (48 ≤ n && n ≤ 57) ||
  n = 45 || n = 95 || n = 46 || n = 33 || n = 126 || n = 42 || n = 39 || n = 40 || n = 41

/-- JS `encodeURIComponent`: unreserved characters pass through, everything
else becomes the percent-encoding of its UTF-8 bytes. -/
def encodeURIComponent (s : String) : String :=
  String.join (s.toList.map fun c =>
    if isUriUnreserved c then
      String.singleton c
    else
      String.join (((String.singleton c).toUTF8.toList).map fun b => byteHex b.toNat))

/-- JS `String.prototype.replace` with a string pattern: replace the first
occurrence only (used at line 224 to strip the `/services/data/{apiVersion}`
prefix from `nextRecordsUrl`). -/
def replaceFirst (s pat repl : String) : String :=
  match s.splitOn pat with
  | [] => s
  | [_] => s
  | p :: ps => p ++ repl ++ String.intercalate pat ps

/-- The `while (nextUrl)` loop of `query` (lines 221-229), with explicit fuel
standing for the number of loop iterations still allowed: the source loop has
no bound of its own, and `SfError.outOfFuel` marks runs that would iterate
beyond the fuel (every claim supplies enough fuel for its page chain).  One
iteration: request the continuation URL with the API prefix stripped, parse it
against the query schema, append the records, and compute the next URL
(`nextResult.done ? '' : (nextResult.nextRecordsUrl || '')`). -/
def queryLoop (cfg : ClientConfig) (ora : Oracle) (now : Nat) :
    Nat → String → List Json → ClientState → Except SfError (List Json) × ClientState
  | 0, nextUrl, records, s =>
    if nextUrl = "" then (Except.ok records, s)
    else (Except.error SfError.outOfFuel, s)
  | fuel + 1, nextUrl, records, s =>
    if nextUrl = "" then (Except.ok records, s)
    else
      match request cfg ora now
          (replaceFirst nextUrl ("/services/data/" ++ cfg.apiVersion) "")
          cfg.maxRetries s with
      | (Except.error e, s1) => (Except.error e, s1)
      | (Except.ok j, s1) =>
        match parseQueryResponse j with
        | none => (Except.error SfError.queryParseFailed, s1)
        | some nextResult =>
          queryLoop cfg ora now fuel
            (if nextResult.done then "" else nextResult.nextRecordsUrl.getD "")
            (records ++ nextResult.records) s1

/-- `query` (lines 211-233): request `/query/?q=<encoded soql>` with the full
retry budget, parse against the query schema, and if `fetchAll` is set, the
page is not done, and a (truthy, i.e. nonempty) `nextRecordsUrl` is present,
drain the remaining pages with `queryLoop`. -/
def query (cfg : ClientConfig) (ora : Oracle) (now : Nat) (soql : String) (fetchAll : Bool)
    (fuel : Nat) (s : ClientState) : Except SfError (List Json) × ClientState :=
  match request cfg ora now ("/query/?q=" ++ encodeURIComponent soql) cfg.maxRetries s with
  | (Except.error e, s1) => (Except.error e, s1)
  | (Except.ok j, s1) =>
    match parseQueryResponse j with
    | none => (Except.error SfError.queryParseFailed, s1)
    | some result =>
      if fetchAll && !result.done && (result.nextRecordsUrl.getD "" != "") then
        queryLoop cfg ora now fuel (result.nextRecordsUrl.getD "") result.records s1
      else
        (Except.ok result.records, s1)

/-- `createRecord` (lines 255-267): POST `/sobjects/{type}/` and parse the
response against `SalesforceCreateResponseSchema`.  The record payload `data`
is sent as the request body; it does not influence the modelled control flow
(the oracle decides the server's answer). -/
def createRecord (cfg : ClientConfig) (ora : Oracle) (now : Nat) (sobject : String)
    (data : Json) (s : ClientState) : Except SfError Json × ClientState :=
  match request cfg ora now ("/sobjects/" ++ sobject ++ "/") cfg.maxRetries s with
  | (Except.error e, s1) => (Except.error e, s1)
  | (Except.ok j, s1) =>
    match parseCreateResponse j with
    | none => (Except.error SfError.createParseFailed, s1)
    | some out => (Except.ok out, s1)

/-! Concrete instances used by witnesses and counterexamples. -/

def tokenJsonOk : Json :=
  Json.obj [("access_token", Json.str "T1"), ("instance_url", Json.str "https://x"),
            ("id", Json.str "I"), ("token_type", Json.str "Bearer"),
            ("issued_at", Json.str "0"), ("signature", Json.str "SG")]

def tokenRespOk : TokenResp := { ok := true, raw := "", json := some tokenJsonOk }

def oracle429 : Oracle :=
  { token := fun _ => tokenRespOk,
    resource := fun _ _ => HttpOutcome.resp 429 { raw := "rate limited", json := none } }

def sampleToken : TokenCache :=
  { accessToken := "T1", instanceUrl := "https://x", expiresAt := 1000 }

def cachedState : ClientState :=
  { tokenCache := some sampleToken, tokenCalls := 0, resCalls := 0, delays := [] }

def emptyState : ClientState :=
  { tokenCache := none, tokenCalls := 0, resCalls := 0, delays := [] }

def oracle400 : Oracle :=
  { token := fun _ => tokenRespOk,
    resource := fun _ _ => HttpOutcome.resp 400 { raw := "bad request", json := none } }

def oracle500 : Oracle :=
  { token := fun _ => tokenRespOk,
    resource := fun _ _ => HttpOutcome.resp 500 { raw := "server down", json := none } }

def oracle401 : Oracle :=
  { token := fun _ => tokenRespOk,
    resource := fun _ _ => HttpOutcome.resp 401 { raw := "expired", json := none } }

def oracleAuthFail : Oracle :=
  { token := fun _ => { ok := false, raw := "denied", json := none },
    resource := fun _ _ => HttpOutcome.resp 200 { raw := "", json := some (Json.obj []) } }

/-- The create body of the C6 scenario, as the JSON value of
the text of the response. -/
def createBodyJson : Json :=
  Json.obj [("id", Json.str "001x"), ("success", Json.bool true), ("errors", Json.arr [])]

def oracleCreate : Oracle :=
  { token := fun _ => tokenRespOk,
    resource := fun _ _ => HttpOutcome.resp 201 { raw := "", json := some createBodyJson } }

/-- The all-defaults page used to make list indexing total in statements. -/
def emptyPage : QueryResp := { totalSize := 0, done := true, records := [], nextRecordsUrl := none }

/-- Well-formed page chain of a query result spanning the listed pages: every
page before the last reports `done = false` and carries a nonempty
continuation URL, and the last page makes the loop stop (it is done, or has no
usable continuation). -/
def chainOk : List QueryResp → Bool
  | [] => false
  | [p] => p.done || (p.nextRecordsUrl.getD "" == "")
  | p :: q :: rest => (!p.done && (p.nextRecordsUrl.getD "" != "")) && chainOk (q :: rest)

/-- Render a `QueryResp` back as the JSON body a server would have sent. -/
def queryRespToJson (q : QueryResp) : Json :=
  Json.obj
    ([("totalSize", Json.num q.totalSize), ("done", Json.bool q.done),
      ("records", Json.arr q.records)] ++
     (match q.nextRecordsUrl with
      | some u => [("nextRecordsUrl", Json.str u)]
      | none => []))

def page1 : QueryResp :=
  { totalSize := 2, done := false,
    records := [Json.obj [("Id", Json.str "1")]],
    nextRecordsUrl := some "/services/data/v61.0/query/01gNEXT-2000" }

def page2 : QueryResp :=
  { totalSize := 2, done := true,
    records := [Json.obj [("Id", Json.str "2")]],
    nextRecordsUrl := none }

def queryPages : List QueryResp := [page1, page2]

def oraclePages : Oracle :=
  { token := fun _ => tokenRespOk,
    resource := fun i _ =>
      HttpOutcome.resp 200 { raw := "", json := some (queryRespToJson (queryPages.getD i emptyPage)) } }

/-! Helper lemmas shared by the claim theorems. -/

/-- A cache hit: `authenticate` returns the cached pair and touches nothing. -/
theorem auth_hit (cfg : ClientConfig) (ora : Oracle) (now : Nat) (s : ClientState)
    (tc : TokenCache) (hcache : s.tokenCache = some tc) (htime : now < tc.expiresAt) :
    authenticate cfg ora now s = (Except.ok ⟨tc.accessToken, tc.instanceUrl⟩, s) := by
  unfold authenticate
  rw [hcache]
  simp [htime]

/-- The token exchange never performs a resource call. -/
theorem tokenExchange_resCalls (cfg : ClientConfig) (ora : Oracle) (now : Nat)
    (s : ClientState) : (tokenExchange cfg ora now s).2.resCalls = s.resCalls := by
  unfold tokenExchange
  dsimp only
  split
  · split
    · rfl
    · split <;> rfl
  · rfl

/-- `authenticate` never performs a resource call. -/
theorem auth_resCalls (cfg : ClientConfig) (ora : Oracle) (now : Nat) (s : ClientState) :
    (authenticate cfg ora now s).2.resCalls = s.resCalls := by
  unfold authenticate
  split
  · split
    · rfl
    · exact tokenExchange_resCalls cfg ora now s
  · exact tokenExchange_resCalls cfg ora now s

/-- At budget 0 an attempt never asks for a retry (the dead `Sum.inr` arm of
the first `request` equation is unreachable). -/
theorem attempt_zero_inl (cfg : ClientConfig) (ora : Oracle) (now : Nat) (endpoint : String)
    (s : ClientState) : ∃ d, attempt cfg ora now endpoint 0 s = Sum.inl d := by
  unfold attempt
  rcases authenticate cfg ora now s with ⟨_ | a, s1⟩
  · exact ⟨_, rfl⟩
  · dsimp only
    rcases ora.resource s1.resCalls (mkUrl a cfg endpoint) with ⟨status, body⟩ | _
    · dsimp only
      split_ifs <;>
        first
          | exact ⟨_, rfl⟩
          | exact absurd (by assumption : (0 : Nat) < 0) (Nat.lt_irrefl 0)
          | exact absurd (And.right (by assumption)) (Nat.lt_irrefl 0)
    · dsimp only
      split_ifs <;>
        first
          | exact ⟨_, rfl⟩
          | exact absurd (by assumption : (0 : Nat) < 0) (Nat.lt_irrefl 0)

/-- Error exits of the token exchange leave the cached-token slot untouched. -/
theorem tokenExchange_error_cache (cfg : ClientConfig) (ora : Oracle) (now : Nat)
    (s : ClientState) (e : SfError)
    (h : (tokenExchange cfg ora now s).1 = Except.error e) :
    (tokenExchange cfg ora now s).2.tokenCache = s.tokenCache := by
  unfold tokenExchange at h ⊢
  dsimp only at h ⊢
  by_cases hok : (ora.token s.tokenCalls).ok = true
  · rw [if_pos hok] at h ⊢
    cases hj : (ora.token s.tokenCalls).json with
    | none => rfl
    | some j =>
      dsimp only
      cases hp : parseTokenResponse j with
      | none => rfl
      | some d => simp [hj, hp] at h
  · rw [if_neg hok] at h ⊢

/-! Claim theorems. -/

/-- C2: whenever a `CachedToken` exists and the current time is strictly below
its expiry instant, `authenticate` returns the cached pair unchanged and makes
no call to the token endpoint (the state, its token-call counter included, is
untouched). -/
theorem authenticate_cache_hit (cfg : ClientConfig) (ora : Oracle) (now : Nat)
    (s : ClientState) (tc : TokenCache)
    (hcache : s.tokenCache = some tc) (htime : now < tc.expiresAt) :
    authenticate cfg ora now s = (Except.ok ⟨tc.accessToken, tc.instanceUrl⟩, s) ∧
    (authenticate cfg ora now s).2.tokenCalls = s.tokenCalls := by
  have h := auth_hit cfg ora now s tc hcache htime
  exact ⟨h, by rw [h]⟩

/-- Witness for C2 at a concrete cached state. -/
theorem authenticate_cache_hit_witness :
    authenticate defaultConfig oracle401 0 cachedState =
      (Except.ok ⟨"T1", "https://x"⟩, cachedState) ∧
    (authenticate defaultConfig oracle401 0 cachedState).2.tokenCalls = 0 :=
  authenticate_cache_hit defaultConfig oracle401 0 cachedState sampleToken rfl (by decide)

/-- C7: a successful token exchange stores a fresh `CachedToken` whose expiry
is the current time plus the configured cache TTL, replacing the whole prior
slot, returns exactly the pair just stored, and the default TTL is 55 minutes
(3300000 ms). -/
theorem authenticate_success_stores_token (cfg : ClientConfig) (ora : Oracle) (now : Nat)
    (s : ClientState) (j : Json) (d : TokenData)
    (hmiss : ∀ tc, s.tokenCache = some tc → tc.expiresAt ≤ now)
    (hok : (ora.token s.tokenCalls).ok = true)
    (hjson : (ora.token s.tokenCalls).json = some j)
    (hparse : parseTokenResponse j = some d) :
    authenticate cfg ora now s =
      (Except.ok ⟨d.access_token, d.instance_url⟩,
       { s with tokenCalls := s.tokenCalls + 1,
                tokenCache := some ⟨d.access_token, d.instance_url, now + cfg.tokenCacheTtlMs⟩ }) ∧
    defaultConfig.tokenCacheTtlMs = 55 * 60 * 1000 := by
  refine ⟨?_, rfl⟩
  have hex : tokenExchange cfg ora now s =
      (Except.ok ⟨d.access_token, d.instance_url⟩,
       { s with tokenCalls := s.tokenCalls + 1,
                tokenCache := some ⟨d.access_token, d.instance_url, now + cfg.tokenCacheTtlMs⟩ }) := by
    unfold tokenExchange
    dsimp only
    rw [if_pos hok, hjson]
    dsimp only
    rw [hparse]
  unfold authenticate
  split
  · rename_i tc heq
    rw [if_neg (by have := hmiss tc heq; omega)]
    exact hex
  · exact hex

/-- Witness for C7: a cache-miss exchange against a concrete oracle. -/
theorem authenticate_success_stores_token_witness :
    authenticate defaultConfig oracle401 0 emptyState =
      (Except.ok ⟨"T1", "https://x"⟩,
       { emptyState with tokenCalls := 1,
                         tokenCache := some ⟨"T1", "https://x", 3300000⟩ }) ∧
    defaultConfig.tokenCacheTtlMs = 55 * 60 * 1000 :=
  authenticate_success_stores_token defaultConfig oracle401 0 emptyState tokenJsonOk
    ⟨"T1", "https://x", "I", "Bearer", "0", "SG"⟩
    (fun tc h => by simp [emptyState] at h) rfl rfl rfl

/-- C10: a failed token exchange is atomic: whenever `authenticate` returns an
error (non-success HTTP status, missing JSON, or schema-validation failure),
the cached-token slot is exactly what it was before the call. -/
theorem authenticate_failure_preserves_cache (cfg : ClientConfig) (ora : Oracle) (now : Nat)
    (s : ClientState) (e : SfError)
    (h : (authenticate cfg ora now s).1 = Except.error e) :
    (authenticate cfg ora now s).2.tokenCache = s.tokenCache := by
  unfold authenticate at h ⊢
  cases hc : s.tokenCache with
  | none =>
    rw [hc] at h
    exact (tokenExchange_error_cache cfg ora now s e h).trans hc
  | some tc =>
    rw [hc] at h
    dsimp only at h
    by_cases ht : now < tc.expiresAt
    · rw [if_pos ht] at h
      exact absurd h (by simp)
    · rw [if_neg ht] at h
      dsimp only
      rw [if_neg ht]
      exact (tokenExchange_error_cache cfg ora now s e h).trans hc

/-- Witness for C10: a denied token exchange leaves the (empty) slot empty. -/
theorem authenticate_failure_preserves_cache_witness :
    (authenticate defaultConfig oracleAuthFail 0 emptyState).2.tokenCache =
      emptyState.tokenCache :=
  authenticate_failure_preserves_cache defaultConfig oracleAuthFail 0 emptyState
    (SfError.authExchangeFailed "denied") rfl

/-- C1: a request attempt answered 401 invalidates the cached token before any
retry: with budget 0 it fails with the authentication-failed-after-retries
error (and the cache is cleared), with budget r+1 it re-runs `request` with
budget r from the cache-cleared state, and any `authenticate` run from a
cleared cache performs a fresh token-endpoint call. -/
theorem request_401_invalidates_then_retries (cfg : ClientConfig) (ora : Oracle) (now : Nat)
    (endpoint : String) (s : ClientState) (a : AuthResult) (s1 : ClientState) (body : RespBody)
    (hauth : authenticate cfg ora now s = (Except.ok a, s1))
    (hresp : ora.resource s1.resCalls (mkUrl a cfg endpoint) = HttpOutcome.resp 401 body) :
    request cfg ora now endpoint 0 s =
      (Except.error SfError.authFailedAfterRetries,
       { s1 with resCalls := s1.resCalls + 1, tokenCache := none }) ∧
    (∀ r, request cfg ora now endpoint (r + 1) s =
      request cfg ora now endpoint r
        { s1 with resCalls := s1.resCalls + 1, tokenCache := none }) ∧
    (∀ s2, s2.tokenCache = none →
      (authenticate cfg ora now s2).2.tokenCalls = s2.tokenCalls + 1) := by
  refine ⟨?_, fun r => ?_, fun s2 h2 => ?_⟩
  · simp only [request, attempt, hauth, hresp]
    simp
  · simp only [request, attempt, hauth, hresp]
    simp
  · unfold authenticate
    rw [h2]
    unfold tokenExchange
    dsimp only
    split
    · split
      · rfl
      · split <;> rfl
    · rfl

/-- Witness for C1: a 401 with no budget left, from a concrete cached state. -/
theorem request_401_invalidates_then_retries_witness :
    request defaultConfig oracle401 0 "/q" 0 cachedState =
      (Except.error SfError.authFailedAfterRetries,
       { cachedState with resCalls := 1, tokenCache := none }) :=
  (request_401_invalidates_then_retries defaultConfig oracle401 0 "/q" cachedState
    ⟨"T1", "https://x"⟩ cachedState { raw := "expired", json := none } rfl rfl).1

/-- The attempt tail never changes the state it is given. -/
theorem finishAttempt_state (status : Nat) (body : RespBody) (s : ClientState) :
    (finishAttempt status body s).2 = s := by
  unfold finishAttempt
  split_ifs
  · rfl
  · split <;> rfl
  · rfl

/-- One attempt performs at most one resource call, whether it finishes or
asks for a retry. -/
theorem attempt_resCalls_le (cfg : ClientConfig) (ora : Oracle) (now : Nat) (endpoint : String)
    (retries : Nat) (s : ClientState) :
    (match attempt cfg ora now endpoint retries s with
     | Sum.inl d => d.2.resCalls
     | Sum.inr s3 => s3.resCalls) ≤ s.resCalls + 1 := by
  have hca := auth_resCalls cfg ora now s
  unfold attempt
  rcases hu : authenticate cfg ora now s with ⟨x, s1⟩
  rw [hu] at hca
  dsimp only at hca
  rcases x with e | a
  · dsimp only
    omega
  · dsimp only
    rcases ora.resource s1.resCalls (mkUrl a cfg endpoint) with ⟨status, body⟩ | _
    · dsimp only
      split_ifs <;> simp [addDelay, finishAttempt_state] <;> omega
    · dsimp only
      split_ifs <;> simp [addDelay] <;> omega

/-- C3: every 429 / ≥500 / timeout retry waits exactly
`2 ^ (initial_budget - remaining_budget) * 1000` milliseconds before re-running
with one unit of budget less; in particular with budget 3 and persistent 429s
the recorded waits are exactly [1000, 2000, 4000] before the final failure. -/
theorem request_backoff_formula (cfg : ClientConfig) (ora : Oracle) (now : Nat)
    (endpoint : String) (r : Nat) (s : ClientState) (a : AuthResult) (s1 : ClientState)
    (status : Nat) (body : RespBody)
    (hauth : authenticate cfg ora now s = (Except.ok a, s1))
    (hresp : ora.resource s1.resCalls (mkUrl a cfg endpoint) = HttpOutcome.resp status body)
    (hstatus : status = 429 ∨ 500 ≤ status) :
    request cfg ora now endpoint (r + 1) s =
      request cfg ora now endpoint r
        { s1 with resCalls := s1.resCalls + 1,
                  delays := s1.delays ++ [2 ^ (cfg.maxRetries - (r + 1)) * 1000] } ∧
    (∀ s2 a2 s3, authenticate cfg ora now s2 = (Except.ok a2, s3) →
      ora.resource s3.resCalls (mkUrl a2 cfg endpoint) = HttpOutcome.timeout →
      request cfg ora now endpoint (r + 1) s2 =
        request cfg ora now endpoint r
          { s3 with resCalls := s3.resCalls + 1,
                    delays := s3.delays ++ [2 ^ (cfg.maxRetries - (r + 1)) * 1000] }) ∧
    request defaultConfig oracle429 0 "/q" 3 cachedState =
      (Except.error (SfError.apiError 429 "Salesforce API Error (429): rate limited"),
       { cachedState with resCalls := 4, delays := [1000, 2000, 4000] }) := by
  refine ⟨?_, fun s2 a2 s3 hauth2 htime2 => ?_, rfl⟩
  · have h401 : status ≠ 401 := by rcases hstatus with h | h <;> omega
    rcases hstatus with h | h
    · subst h
      simp only [request, attempt, hauth, hresp]
      simp [addDelay, backoffDelay]
    · have h429 : ¬(status = 429 ∧ 0 < r + 1) := by omega
      have h5xx : 500 ≤ status ∧ 0 < r + 1 := ⟨h, Nat.succ_pos r⟩
      simp only [request, attempt, hauth, hresp]
      rw [if_neg h401, if_neg h429, if_pos h5xx]
      simp [addDelay, backoffDelay]
  · simp only [request, attempt, hauth2, htime2]
    simp [addDelay, backoffDelay]

/-- Witness for C3: the first 429 retry of a budget-3 run waits 1000 ms. -/
theorem request_backoff_formula_witness :
    request defaultConfig oracle429 0 "/q" 3 cachedState =
      request defaultConfig oracle429 0 "/q" 2
        { cachedState with resCalls := 1, delays := [1000] } :=
  (request_backoff_formula defaultConfig oracle429 0 "/q" 2 cachedState
    ⟨"T1", "https://x"⟩ cachedState 429 { raw := "rate limited", json := none }
    rfl rfl (Or.inl rfl)).1

/-- C4 counterexample: with the retry budget at 0, a 429 (and a 5xx) response
does not produce a dedicated rate-limit or server error: it falls into the
generic non-2xx handler and fails with the same `SfError.apiError` shape a
plain 400 produces, contradicting the claimed distinct error classes. -/
theorem rateLimit_exhausted_generic_counterexample :
    request defaultConfig oracle429 0 "/q" 0 cachedState =
      (Except.error (SfError.apiError 429 "Salesforce API Error (429): rate limited"),
       { cachedState with resCalls := 1 }) ∧
    request defaultConfig oracle500 0 "/q" 0 cachedState =
      (Except.error (SfError.apiError 500 "Salesforce API Error (500): server down"),
       { cachedState with resCalls := 1 }) ∧
    request defaultConfig oracle400 0 "/q" 0 cachedState =
      (Except.error (SfError.apiError 400 "Salesforce API Error (400): bad request"),
       { cachedState with resCalls := 1 }) :=
  ⟨rfl, rfl, rfl⟩

/-- C4 (amended): a 429 or ≥500 response that finds the retry budget at 0
falls through to the generic non-2xx handler and the request fails with the
generic ApiError carrying that status and the parsed-or-raw message; the code
defines no distinct rate-limit or server error class. -/
theorem request_exhausted_429_5xx_generic (cfg : ClientConfig) (ora : Oracle) (now : Nat)
    (endpoint : String) (s : ClientState) (a : AuthResult) (s1 : ClientState)
    (status : Nat) (body : RespBody)
    (hauth : authenticate cfg ora now s = (Except.ok a, s1))
    (hresp : ora.resource s1.resCalls (mkUrl a cfg endpoint) = HttpOutcome.resp status body)
    (hstatus : status = 429 ∨ 500 ≤ status) :
    request cfg ora now endpoint 0 s =
      (Except.error (SfError.apiError status (apiErrorMessage status body)),
       { s1 with resCalls := s1.resCalls + 1 }) := by
  have h401 : status ≠ 401 := by rcases hstatus with h | h <;> omega
  have h429 : ¬(status = 429 ∧ 0 < 0) := by omega
  have h5xx : ¬(500 ≤ status ∧ 0 < 0) := by omega
  have h2xx : ¬(200 ≤ status ∧ status < 300) := by rcases hstatus with h | h <;> omega
  simp only [request, attempt, finishAttempt, hauth, hresp]
  rw [if_neg h401, if_neg h429, if_neg h5xx, if_neg h2xx]

/-- Witness for the amended C4 at a concrete exhausted-429 run. -/
theorem request_exhausted_429_5xx_generic_witness :
    request defaultConfig oracle429 0 "/q" 0 cachedState =
      (Except.error (SfError.apiError 429 "Salesforce API Error (429): rate limited"),
       { cachedState with resCalls := 1 }) :=
  request_exhausted_429_5xx_generic defaultConfig oracle429 0 "/q" cachedState
    ⟨"T1", "https://x"⟩ cachedState 429 { raw := "rate limited", json := none }
    rfl rfl (Or.inl rfl)

/-- C8: any non-2xx status outside 401/429/≥500 fails immediately (whatever the
remaining budget) with the generic ApiError; the message carries the parsed
error-list messages when the body parses against the error schema, and the raw
body text when the body is not JSON or not of that shape. -/
theorem request_other_non2xx_apiError (cfg : ClientConfig) (ora : Oracle) (now : Nat)
    (endpoint : String) (retries : Nat) (s : ClientState) (a : AuthResult) (s1 : ClientState)
    (status : Nat) (body : RespBody)
    (hauth : authenticate cfg ora now s = (Except.ok a, s1))
    (hresp : ora.resource s1.resCalls (mkUrl a cfg endpoint) = HttpOutcome.resp status body)
    (hnot2xx : ¬(200 ≤ status ∧ status < 300))
    (h401 : status ≠ 401) (h429 : status ≠ 429) (h5xx : status < 500) :
    request cfg ora now endpoint retries s =
      (Except.error (SfError.apiError status (apiErrorMessage status body)),
       { s1 with resCalls := s1.resCalls + 1 }) ∧
    (body.json = none →
      apiErrorMessage status body =
        "Salesforce API Error (" ++ toString status ++ "): " ++ body.raw) ∧
    (∀ j errs, body.json = some j → parseSfErrors j = some errs →
      apiErrorMessage status body =
        "Salesforce API Error: " ++ String.intercalate ", " (errs.map SfApiErrorItem.message)) ∧
    (∀ j, body.json = some j → parseSfErrors j = none →
      apiErrorMessage status body =
        "Salesforce API Error (" ++ toString status ++ "): " ++ body.raw) := by
  have ha429 : ¬(status = 429 ∧ 0 < retries) := by omega
  have ha5xx : ¬(500 ≤ status ∧ 0 < retries) := by omega
  have hat : attempt cfg ora now endpoint retries s =
      Sum.inl (Except.error (SfError.apiError status (apiErrorMessage status body)),
               { s1 with resCalls := s1.resCalls + 1 }) := by
    simp only [attempt, finishAttempt, hauth, hresp]
    rw [if_neg h401, if_neg ha429, if_neg ha5xx, if_neg hnot2xx]
  refine ⟨?_, fun hn => ?_, fun j errs hj hp => ?_, fun j hj hp => ?_⟩
  · cases retries with
    | zero => simp only [request, hat]
    | succ r => simp only [request, hat]
  · simp [apiErrorMessage, hn]
  · simp [apiErrorMessage, hj, hp]
  · simp [apiErrorMessage, hj, hp]

/-- Witness for C8: a 400 with an unparseable body carries the raw text. -/
theorem request_other_non2xx_apiError_witness :
    request defaultConfig oracle400 0 "/q" 3 cachedState =
      (Except.error (SfError.apiError 400 "Salesforce API Error (400): bad request"),
       { cachedState with resCalls := 1 }) ∧
    apiErrorMessage 400 { raw := "bad request", json := none } =
      "Salesforce API Error (400): bad request" := by
  have h := request_other_non2xx_apiError defaultConfig oracle400 0 "/q" 3 cachedState
    ⟨"T1", "https://x"⟩ cachedState 400 { raw := "bad request", json := none }
    rfl rfl (by omega) (by omega) (by omega) (by omega)
  exact ⟨h.1, h.2.1 rfl⟩

/-- C9: the retry loop terminates with at most `retries + 1` resource attempts:
every retry path demands a positive budget and recurses with the budget
decremented by one, so no retry happens at budget 0. -/
theorem request_attempt_bound (cfg : ClientConfig) (ora : Oracle) (now : Nat)
    (endpoint : String) :
    ∀ (retries : Nat) (s : ClientState),
      (request cfg ora now endpoint retries s).2.resCalls ≤ s.resCalls + (retries + 1) := by
  intro retries
  induction retries with
  | zero =>
    intro s
    have hb := attempt_resCalls_le cfg ora now endpoint 0 s
    rcases h : attempt cfg ora now endpoint 0 s with d | s3
    · rw [h] at hb
      dsimp only at hb
      simp only [request, h]
      omega
    · rw [h] at hb
      dsimp only at hb
      simp only [request, h]
      omega
  | succ r ih =>
    intro s
    have hb := attempt_resCalls_le cfg ora now endpoint (r + 1) s
    rcases h : attempt cfg ora now endpoint (r + 1) s with d | s3
    · rw [h] at hb
      dsimp only at hb
      simp only [request, h]
      omega
    · rw [h] at hb
      dsimp only at hb
      simp only [request, h]
      have := ih s3
      omega

/-- A cache hit followed by a 200 JSON response: one resource call, the body's
JSON is returned, and only the resource-call counter moves. -/
theorem request_success_200 (cfg : ClientConfig) (ora : Oracle) (now : Nat) (endpoint : String)
    (retries : Nat) (s : ClientState) (tc : TokenCache) (body : RespBody) (j : Json)
    (hcache : s.tokenCache = some tc) (htime : now < tc.expiresAt)
    (hresp : ∀ u, ora.resource s.resCalls u = HttpOutcome.resp 200 body)
    (hj : body.json = some j) :
    request cfg ora now endpoint retries s =
      (Except.ok j, { s with resCalls := s.resCalls + 1 }) := by
  have ha := auth_hit cfg ora now s tc hcache htime
  have hat : attempt cfg ora now endpoint retries s =
      Sum.inl (Except.ok j, { s with resCalls := s.resCalls + 1 }) := by
    simp only [attempt, ha, hresp]
    simp [finishAttempt, hj]
  cases retries with
  | zero => simp only [request, hat]
  | succ r => simp only [request, hat]

/-- An exhausted loop guard: an empty continuation URL ends the loop at once. -/
theorem queryLoop_empty_url (cfg : ClientConfig) (ora : Oracle) (now : Nat) (fuel : Nat)
    (records : List Json) (s : ClientState) :
    queryLoop cfg ora now fuel "" records s = (Except.ok records, s) := by
  cases fuel <;> rfl

/-- The pagination loop over a well-formed chain of remaining pages appends
every page's records in order, with exactly one resource call per page. -/
theorem queryLoop_serves (cfg : ClientConfig) (ora : Oracle) (now : Nat) (tc : TokenCache)
    (htime : now < tc.expiresAt) :
    ∀ (rest : List QueryResp) (js : Nat → Json) (raws : Nat → String) (fuel : Nat)
      (url : String) (acc : List Json) (s : ClientState),
      s.tokenCache = some tc →
      (∀ i u, ora.resource (s.resCalls + i) u =
        HttpOutcome.resp 200 { raw := raws i, json := some (js i) }) →
      (∀ i, parseQueryResponse (js i) = some (rest.getD i emptyPage)) →
      chainOk rest = true →
      rest.length ≤ fuel →
      url ≠ "" →
      queryLoop cfg ora now fuel url acc s =
        (Except.ok (acc ++ List.join (rest.map QueryResp.records)),
         { s with resCalls := s.resCalls + rest.length }) := by
  intro rest
  induction rest with
  | nil =>
    intro js raws fuel url acc s _ _ _ hchain _ _
    simp [chainOk] at hchain
  | cons p rest ih =>
    intro js raws fuel url acc s hcache hserve hparse hchain hfuel hurl
    obtain ⟨f, rfl⟩ : ∃ f, fuel = f + 1 := by
      cases fuel with
      | zero => simp at hfuel
      | succ f => exact ⟨f, rfl⟩
    have hp0 : parseQueryResponse (js 0) = some p := by simpa using hparse 0
    have hreq : request cfg ora now
        (replaceFirst url ("/services/data/" ++ cfg.apiVersion) "") cfg.maxRetries s =
        (Except.ok (js 0), { s with resCalls := s.resCalls + 1 }) :=
      request_success_200 cfg ora now _ cfg.maxRetries s tc
        { raw := raws 0, json := some (js 0) } (js 0) hcache htime
        (fun u => by simpa using hserve 0 u) rfl
    simp only [queryLoop]
    rw [if_neg hurl, hreq]
    dsimp only
    rw [hp0]
    dsimp only
    cases rest with
    | nil =>
      have hempty : (if p.done then "" else p.nextRecordsUrl.getD "") = "" := by
        simp only [chainOk, Bool.or_eq_true, beq_iff_eq] at hchain
        rcases hchain with h | h
        · rw [if_pos h]
        · by_cases hd : p.done
          · rw [if_pos hd]
          · rw [if_neg hd]; exact h
      rw [hempty, queryLoop_empty_url]
      simp
    | cons q rest2 =>
      simp only [chainOk, Bool.and_eq_true, Bool.not_eq_true', bne_iff_ne, ne_eq] at hchain
      obtain ⟨⟨hnd, hnu⟩, hch2⟩ := hchain
      rw [if_neg (by simp [hnd])]
      have hserve2 : ∀ i u, ora.resource (({ s with resCalls := s.resCalls + 1 } : ClientState).resCalls + i) u =
          HttpOutcome.resp 200 { raw := raws (i + 1), json := some (js (i + 1)) } := by
        intro i u
        have h := hserve (i + 1) u
        rwa [show s.resCalls + (i + 1) = s.resCalls + 1 + i by omega] at h
      have hparse2 : ∀ i, parseQueryResponse (js (i + 1)) =
          some ((q :: rest2).getD i emptyPage) := by
        intro i
        simpa using hparse (i + 1)
      have hfuel2 : (q :: rest2).length ≤ f := by
        simp only [List.length_cons] at hfuel ⊢
        omega
      have hloop := ih (fun i => js (i + 1)) (fun i => raws (i + 1)) f
        (p.nextRecordsUrl.getD "") (acc ++ p.records) { s with resCalls := s.resCalls + 1 }
        hcache hserve2 hparse2 hch2 hfuel2 hnu
      rw [hloop]
      simp [List.append_assoc] <;> omega

/-- C5: a `fetchAll` query over a server whose pages form a well-formed chain
returns the concatenation of all pages' records in server order, with exactly
one resource call per page; the result length is the sum of the per-page
counts, and when the first page reports `done` exactly one call is made. -/
theorem query_fetchAll_concatenates (cfg : ClientConfig) (ora : Oracle) (now : Nat)
    (soql : String) (fuel : Nat) (s : ClientState) (tc : TokenCache)
    (pages : List QueryResp) (js : Nat → Json) (raws : Nat → String)
    (hcache : s.tokenCache = some tc) (htime : now < tc.expiresAt)
    (hserve : ∀ i u, ora.resource (s.resCalls + i) u =
      HttpOutcome.resp 200 { raw := raws i, json := some (js i) })
    (hparse : ∀ i, parseQueryResponse (js i) = some (pages.getD i emptyPage))
    (hchain : chainOk pages = true)
    (hfuel : pages.length ≤ fuel + 1) :
    query cfg ora now soql true fuel s =
      (Except.ok (List.join (pages.map QueryResp.records)),
       { s with resCalls := s.resCalls + pages.length }) ∧
    (List.join (pages.map QueryResp.records)).length =
      (pages.map fun p => p.records.length).sum ∧
    ((pages.getD 0 emptyPage).done = true →
      (query cfg ora now soql true fuel s).2.resCalls = s.resCalls + 1) := by
  have hmain : query cfg ora now soql true fuel s =
      (Except.ok (List.join (pages.map QueryResp.records)),
       { s with resCalls := s.resCalls + pages.length }) := by
    cases pages with
    | nil => simp [chainOk] at hchain
    | cons p rest =>
      have hp0 : parseQueryResponse (js 0) = some p := by simpa using hparse 0
      have hreq : request cfg ora now ("/query/?q=" ++ encodeURIComponent soql)
          cfg.maxRetries s = (Except.ok (js 0), { s with resCalls := s.resCalls + 1 }) :=
        request_success_200 cfg ora now _ cfg.maxRetries s tc
          { raw := raws 0, json := some (js 0) } (js 0) hcache htime
          (fun u => by simpa using hserve 0 u) rfl
      unfold query
      rw [hreq]
      dsimp only
      rw [hp0]
      dsimp only
      by_cases hd : p.done = true
      · rw [if_neg (by simp [hd])]
        cases rest with
        | nil => simp
        | cons q rest2 => simp [chainOk, hd] at hchain
      · by_cases hnu : p.nextRecordsUrl.getD "" = ""
        · rw [if_neg (by simp [hnu])]
          cases rest with
          | nil => simp
          | cons q rest2 => simp [chainOk, hnu] at hchain
        · rw [if_pos (by simp [hd, hnu])]
          cases rest with
          | nil => simp [chainOk, hd, hnu] at hchain
          | cons q rest2 =>
            simp only [chainOk, Bool.and_eq_true, Bool.not_eq_true', bne_iff_ne, ne_eq]
              at hchain
            obtain ⟨⟨hnd, hnu2⟩, hch2⟩ := hchain
            have hserve2 : ∀ i u, ora.resource
                (({ s with resCalls := s.resCalls + 1 } : ClientState).resCalls + i) u =
                HttpOutcome.resp 200 { raw := raws (i + 1), json := some (js (i + 1)) } := by
              intro i u
              have h := hserve (i + 1) u
              rwa [show s.resCalls + (i + 1) = s.resCalls + 1 + i by omega] at h
            have hparse2 : ∀ i, parseQueryResponse (js (i + 1)) =
                some ((q :: rest2).getD i emptyPage) := by
              intro i
              simpa using hparse (i + 1)
            have hfuel2 : (q :: rest2).length ≤ fuel := by
              simp only [List.length_cons] at hfuel ⊢
              omega
            have hloop := queryLoop_serves cfg ora now tc htime (q :: rest2)
              (fun i => js (i + 1)) (fun i => raws (i + 1)) fuel
              (p.nextRecordsUrl.getD "") p.records { s with resCalls := s.resCalls + 1 }
              hcache hserve2 hparse2 hch2 hfuel2 hnu
            rw [hloop]
            simp <;> omega
  refine ⟨hmain, ?_, fun hdone => ?_⟩
  · simp only [List.length_join, List.map_map]
    rfl
  · rw [hmain]
    cases pages with
    | nil => simp [chainOk] at hchain
    | cons p rest =>
      cases rest with
      | nil => rfl
      | cons q rest2 =>
        simp only [List.getD_cons_zero] at hdone
        simp [chainOk, hdone] at hchain

/-- Witness for C5: a concrete two-page query returns both records with two
resource calls. -/
theorem query_fetchAll_concatenates_witness :
    query defaultConfig oraclePages 0 "SELECT Id FROM Account" true 1 cachedState =
      (Except.ok [Json.obj [("Id", Json.str "1")], Json.obj [("Id", Json.str "2")]],
       { cachedState with resCalls := 2 }) := by
  have h := query_fetchAll_concatenates defaultConfig oraclePages 0 "SELECT Id FROM Account"
    1 cachedState sampleToken queryPages
    (fun i => queryRespToJson (queryPages.getD i emptyPage)) (fun _ => "")
    rfl (by decide) (fun i u => by simp [cachedState, oraclePages])
    (fun i => by
      match i with
      | 0 => rfl
      | 1 => rfl
      | n + 2 => rfl)
    rfl (by decide)
  simpa using h.1

/-- C6 counterexample: for the create scenario body, the value handed back to
the caller is not the two-field object `id/success`: the `errors` field is
still present in the runtime value (zod keeps every declared key; only the
static TypeScript return type hides it). -/
theorem createRecord_errors_kept_counterexample :
    (createRecord defaultConfig oracleCreate 0 "Account" (Json.obj []) cachedState).1 =
      Except.ok (Json.obj [("id", Json.str "001x"), ("success", Json.bool true),
                           ("errors", Json.arr [])]) ∧
    (createRecord defaultConfig oracleCreate 0 "Account" (Json.obj []) cachedState).1 ≠
      Except.ok (Json.obj [("id", Json.str "001x"), ("success", Json.bool true)]) := by
  refine ⟨rfl, fun h => ?_⟩
  rw [show (createRecord defaultConfig oracleCreate 0 "Account" (Json.obj []) cachedState).1 =
      Except.ok (Json.obj [("id", Json.str "001x"), ("success", Json.bool true),
                           ("errors", Json.arr [])]) from rfl] at h
  simp at h

/-- C6 (amended): a successful create call whose response body is
`id 001x, success true, errors []` returns that body's three declared fields
unchanged — `errors` included — because zod's object parse keeps every
declared key (the TS return type `id/success` only narrows the static view). -/
theorem createRecord_returns_declared_fields (cfg : ClientConfig) (ora : Oracle) (now : Nat)
    (sobject : String) (data : Json) (s s1 : ClientState)
    (hreq : request cfg ora now ("/sobjects/" ++ sobject ++ "/") cfg.maxRetries s =
      (Except.ok (Json.obj [("id", Json.str "001x"), ("success", Json.bool true),
                            ("errors", Json.arr [])]), s1)) :
    createRecord cfg ora now sobject data s =
      (Except.ok (Json.obj [("id", Json.str "001x"), ("success", Json.bool true),
                            ("errors", Json.arr [])]), s1) := by
  unfold createRecord
  rw [hreq]
  rfl

/-- Witness for the amended C6 against a concrete create oracle. -/
theorem createRecord_returns_declared_fields_witness :
    createRecord defaultConfig oracleCreate 0 "Account" (Json.obj []) cachedState =
      (Except.ok (Json.obj [("id", Json.str "001x"), ("success", Json.bool true),
                            ("errors", Json.arr [])]),
       { cachedState with resCalls := 1 }) :=
  createRecord_returns_declared_fields defaultConfig oracleCreate 0 "Account" (Json.obj [])
    cachedState { cachedState with resCalls := 1 } rfl

end SFDC
